import Mathlib

set_option autoImplicit false

/-!
Verification development for the connectivity/tunnel-supervision subsystem of
the aws-automation repository.  The definitions below are a shallow embedding
of src/modules/connectivity_module.py (the tunnel supervisor, health monitor,
profile generator and their persisted state) together with the port-scan
helper of src/modules/shared_data_module.py.  Python dictionaries are modelled
as association lists, the file system (tunnel-descriptor directory and
profile directory) as association lists from source identifier to file
content, and every file-system mutation is additionally recorded in an
operation trace so that write mechanisms (direct write versus
temp-file-plus-rename) are observable.  External effects (SSH key presence,
bastion reachability, the outcome of starting a forwarder) are supplied by an
environment record.
-/

namespace AwsAutomation

/-- One entry of the static SHARED_DATA_SOURCES catalog
(connectivity_module.py lines 32-94).  Python dict keys that are absent for
cloud-service sources (bastion_host, target_host, target_port, local_port)
are modelled with default values; the code never reads them for those
sources. -/
structure SourceConfig where
  name : String
  stype : String
  description : String := ""
  bastion_host : String := ""
  target_host : String := ""
  target_port : Nat := 0
  local_port : Nat := 0
  datasets : List String := []
  project_id : String := ""
  deriving Repr, DecidableEq

/-- The aws-postgres catalog entry. -/
def aws_postgres_cfg : SourceConfig :=
  { name := "AWS PostgreSQL (Shared)"
    stype := "postgresql"
    description := "Shared PostgreSQL instance with sample datasets"
    bastion_host := "bastion-aws.platform.internal"
    target_host := "postgres-shared.platform.internal"
    target_port := 5432
    local_port := 5432
    datasets := ["tpch", "tpcds", "customer_sample", "web_logs"] }

/-- The aws-mysql catalog entry. -/
def aws_mysql_cfg : SourceConfig :=
  { name := "AWS MySQL (Shared)"
    stype := "mysql"
    description := "Shared MySQL instance for compatibility testing"
    bastion_host := "bastion-aws.platform.internal"
    target_host := "mysql-shared.platform.internal"
    target_port := 3306
    local_port := 3306
    datasets := ["sakila", "world", "customer_orders"] }

/-- The aws-s3 catalog entry (cloud-service source, no tunnel fields). -/
def aws_s3_cfg : SourceConfig :=
  { name := "AWS S3 (Shared Buckets)"
    stype := "s3"
    description := "Shared S3 buckets with various data formats" }

/-- The gcp-bigquery catalog entry (cloud-service source). -/
def gcp_bigquery_cfg : SourceConfig :=
  { name := "GCP BigQuery (Shared)"
    stype := "bigquery"
    description := "Shared BigQuery datasets for analytics testing"
    project_id := "platform-shared-data"
    datasets := ["public_datasets", "sample_analytics", "customer_events"] }

/-- The gcp-postgres catalog entry. -/
def gcp_postgres_cfg : SourceConfig :=
  { name := "GCP Cloud SQL PostgreSQL"
    stype := "postgresql"
    description := "Shared Cloud SQL PostgreSQL instance"
    bastion_host := "bastion-gcp.platform.internal"
    target_host := "postgres-gcp.platform.internal"
    target_port := 5432
    local_port := 5433
    datasets := ["retail_data", "financial_sample"] }

/-- The azure-synapse catalog entry. -/
def azure_synapse_cfg : SourceConfig :=
  { name := "Azure Synapse (Shared)"
    stype := "synapse"
    description := "Shared Azure Synapse for data warehouse testing"
    bastion_host := "bastion-azure.platform.internal"
    target_host := "synapse-shared.platform.internal"
    target_port := 1433
    local_port := 1433
    datasets := ["data_warehouse_sample", "time_series_data"] }

/-- The static catalog SHARED_DATA_SOURCES: cloud provider to
(source identifier to configuration), in source order
(connectivity_module.py lines 32-94). -/
def SHARED_DATA_SOURCES : List (String × List (String × SourceConfig)) :=
  [("aws", [("aws-postgres", aws_postgres_cfg),
            ("aws-mysql", aws_mysql_cfg),
            ("aws-s3", aws_s3_cfg)]),
   ("gcp", [("gcp-bigquery", gcp_bigquery_cfg),
            ("gcp-postgres", gcp_postgres_cfg)]),
   ("azure", [("azure-synapse", azure_synapse_cfg)])]

/-- A persisted tunnel descriptor, the JSON object written to
TUNNELS_DIR/&lt;id&gt;.json (connectivity_module.py lines 176-184).  The ISO
timestamp is abstracted to a Nat clock value. -/
structure TunnelInfo where
  data_source_id : String
  bastion_host : String
  target_host : String
  target_port : Nat
  local_port : Nat
  created_at : Nat
  status : String
  deriving Repr, DecidableEq

/-- An in-memory forwarding-task handle (an SSHTunnelForwarder object):
an opaque identity plus the liveness bit read through tunnel.is_alive.
External death of the tunnel is modelled by flipping is_alive to false. -/
structure Tunnel where
  handle : Nat
  is_alive : Bool
  deriving Repr, DecidableEq

/-- Content of a profile YAML file: a mapping from top-level key to a
string-to-string catalog property block (the code writes a single
catalog_&lt;id&gt; key). -/
abbrev ProfileContent := List (String × List (String × String))

/-- File-system operations performed by the subsystem, recorded in a trace.
The constructors writeTempFile and renameFile are never emitted by the code;
they exist so that the atomic-write-by-rename property can be stated and
refuted. -/
inductive FsOp where
  | writeTunnelDesc (id : String) (info : TunnelInfo)
  | deleteTunnelDesc (id : String)
  | writeProfile (id : String) (content : ProfileContent)
  | deleteProfile (id : String)
  | writeTempFile (path : String) (content : ProfileContent)
  | renameFile (src : String) (dst : String)
  deriving Repr, DecidableEq

/-- The mutable state of the subsystem: the in-memory active_tunnels dict,
the tunnel-descriptor directory, the profile directory, the set of forwarder
handles on which stop() has been called, a fresh-handle counter, and the
trace of file-system operations performed so far. -/
structure ConnState where
  active_tunnels : List (String × Tunnel)
  tunnelFiles : List (String × TunnelInfo)
  profileFiles : List (String × ProfileContent)
  stoppedHandles : List Nat
  nextHandle : Nat
  trace : List FsOp
  deriving Repr, DecidableEq

/-- Dictionary/file write: replaces any previous binding for the key. -/
def setEntry {α : Type} (id : String) (v : α) (l : List (String × α)) :
    List (String × α) :=
  (id, v) :: l.filter (fun p => p.1 != id)

/-- Dictionary del / file unlink: removes every binding for the key. -/
def removeEntry {α : Type} (id : String) (l : List (String × α)) :
    List (String × α) :=
  l.filter (fun p => p.1 != id)

/-- Outcome of constructing and starting an SSHTunnelForwarder: either the
call raises (modelled as no forwarder resource materialising, matching the
except branch of create_ssh_tunnel) or it returns a forwarder whose is_alive
attribute has the given value. -/
inductive StartOutcome where
  | exn
  | ok (alive : Bool)
  deriving Repr, DecidableEq

/-- External environment of one enable call: whether the SSH key file exists
(get_ssh_key_path), which bastion hosts answer the paramiko pre-flight
(test_bastion_connectivity), the outcome of forwarder start, and the current
clock used for the created_at timestamp. -/
structure Env where
  sshKeyAvailable : Bool
  bastionReachable : String → Bool
  startOutcome : StartOutcome
  now : Nat

/-- The tunnel_info dict built on successful tunnel start
(connectivity_module.py lines 176-184). -/
def mkTunnelInfo (env : Env) (data_source_id : String) (cfg : SourceConfig) :
    TunnelInfo :=
  { data_source_id := data_source_id
    bastion_host := cfg.bastion_host
    target_host := cfg.target_host
    target_port := cfg.target_port
    local_port := cfg.local_port
    created_at := env.now
    status := "active" }

/-- create_ssh_tunnel (connectivity_module.py lines 140-203).  Returns the
tunnel_info on success; on every failure path (missing SSH key, unreachable
bastion, exception during forwarder construction/start, forwarder not alive
after start) it returns none.  The not-alive branch calls tunnel.stop() on
the freshly created forwarder, recorded in stoppedHandles. -/
def create_ssh_tunnel (env : Env) (st : ConnState) (data_source_id : String)
    (cfg : SourceConfig) : Option TunnelInfo × ConnState :=
  if env.sshKeyAvailable = false then (none, st)
  else if env.bastionReachable cfg.bastion_host = false then (none, st)
  else
    match env.startOutcome with
    | .exn => (none, st)
    | .ok alive =>
      let h := st.nextHandle
      if alive then
        let info := mkTunnelInfo env data_source_id cfg
        (some info,
          { st with
            nextHandle := h + 1
            tunnelFiles := setEntry data_source_id info st.tunnelFiles
            trace := st.trace ++ [FsOp.writeTunnelDesc data_source_id info]
            active_tunnels :=
              setEntry data_source_id { handle := h, is_alive := true }
                st.active_tunnels })
      else
        (none,
          { st with
            nextHandle := h + 1
            stoppedHandles := h :: st.stoppedHandles })

/-- stop_ssh_tunnel (connectivity_module.py lines 206-219): stops and removes
the in-memory tunnel if present, then unlinks the descriptor file if it
exists. -/
def stop_ssh_tunnel (st : ConnState) (data_source_id : String) : ConnState :=
  let st1 :=
    match st.active_tunnels.lookup data_source_id with
    | some t =>
      { st with
        active_tunnels := removeEntry data_source_id st.active_tunnels
        stoppedHandles := t.handle :: st.stoppedHandles }
    | none => st
  if (st1.tunnelFiles.lookup data_source_id).isSome then
    { st1 with
      tunnelFiles := removeEntry data_source_id st1.tunnelFiles
      trace := st1.trace ++ [FsOp.deleteTunnelDesc data_source_id] }
  else st1

/-- is_data_source_connected (connectivity_module.py lines 301-315).  When
the descriptor file exists and the id is in the in-memory dict it returns
the is_alive bit of the forwarder; in every other case, including a
descriptor file with no in-memory entry, it falls through to checking
whether a profile file exists. -/
def is_data_source_connected (st : ConnState) (data_source_id : String) :
    Bool :=
  match st.tunnelFiles.lookup data_source_id,
        st.active_tunnels.lookup data_source_id with
  | some _, some t => t.is_alive
  | _, _ => (st.profileFiles.lookup data_source_id).isSome

/-- Model of the Python str.replace of the single-character dash pattern by
underscore: a characterwise map, used for catalog names. -/
def replaceDashUnderscore (s : String) : String :=
  String.mk (s.data.map (fun c => if c = '-' then '_' else c))

/-- Catalog key written at the top of a profile file:
catalog_&lt;id with dashes replaced by underscores&gt;. -/
def catalogKey (data_source_id : String) : String :=
  "catalog_" ++ replaceDashUnderscore data_source_id

/-- The protocol-specific catalog property block of
create_starburst_connection_profile (connectivity_module.py lines 366-391).
For a type outside the three tunnel-backed protocols the Python local
catalog_config is never assigned and the subsequent use raises NameError;
that case is modelled as none. -/
def starburstCatalogConfig (stype : String) (local_port : Nat) :
    Option (List (String × String)) :=
  if stype = "postgresql" then
    some [("connector.name", "postgresql"),
          ("connection-url",
            "jdbc:postgresql://localhost:" ++ toString local_port ++ "/postgres"),
          ("connection-user", "starburst_user"),
          ("connection-password", "$\x7bENV:POSTGRES_PASSWORD\x7d"),
          ("case-insensitive-name-matching", "true")]
  else if stype = "mysql" then
    some [("connector.name", "mysql"),
          ("connection-url",
            "jdbc:mysql://localhost:" ++ toString local_port ++ "/mysql"),
          ("connection-user", "starburst_user"),
          ("connection-password", "$\x7bENV:MYSQL_PASSWORD\x7d"),
          ("case-insensitive-name-matching", "true")]
  else if stype = "synapse" then
    some [("connector.name", "sqlserver"),
          ("connection-url",
            "jdbc:sqlserver://localhost:" ++ toString local_port ++ ";database=master"),
          ("connection-user", "starburst_user"),
          ("connection-password", "$\x7bENV:SYNAPSE_PASSWORD\x7d"),
          ("case-insensitive-name-matching", "true")]
  else none

/-- Return value of the two profile-writer functions. -/
structure ProfileResult where
  profile_file : String
  catalog_name : String
  connector_type : String
  deriving Repr, DecidableEq

/-- create_starburst_connection_profile (connectivity_module.py lines
362-405): writes the profile file for a tunnel-backed source directly (a
single open-for-write plus dump, no temporary file and no rename). -/
def create_starburst_connection_profile (st : ConnState)
    (data_source_id : String) (cfg : SourceConfig) (tunnel_info : TunnelInfo) :
    Option ProfileResult × ConnState :=
  match starburstCatalogConfig cfg.stype tunnel_info.local_port with
  | none => (none, st)
  | some cc =>
    let content : ProfileContent := [(catalogKey data_source_id, cc)]
    (some { profile_file := data_source_id ++ ".yaml"
            catalog_name := replaceDashUnderscore data_source_id
            connector_type := cfg.stype },
     { st with
       profileFiles := setEntry data_source_id content st.profileFiles
       trace := st.trace ++ [FsOp.writeProfile data_source_id content] })

/-- Catalog property block of create_cloud_service_profile
(connectivity_module.py lines 411-427); none models the unassigned
catalog_config NameError for other types. -/
def cloudCatalogConfig (cfg : SourceConfig) : Option (List (String × String)) :=
  if cfg.stype = "s3" then
    some [("connector.name", "hive"),
          ("hive.s3.aws-access-key", "$\x7bENV:AWS_ACCESS_KEY_ID\x7d"),
          ("hive.s3.aws-secret-key", "$\x7bENV:AWS_SECRET_ACCESS_KEY\x7d"),
          ("hive.s3.region", "us-east-1"),
          ("hive.metastore.uri", "thrift://localhost:9083")]
  else if cfg.stype = "bigquery" then
    some [("connector.name", "bigquery"),
          ("bigquery.project-id", cfg.project_id),
          ("bigquery.credentials-key",
            "$\x7bENV:GOOGLE_APPLICATION_CREDENTIALS\x7d"),
          ("case-insensitive-name-matching", "true")]
  else none

/-- create_cloud_service_profile (connectivity_module.py lines 408-439). -/
def create_cloud_service_profile (st : ConnState) (data_source_id : String)
    (cfg : SourceConfig) : Option ProfileResult × ConnState :=
  match cloudCatalogConfig cfg with
  | none => (none, st)
  | some cc =>
    let content : ProfileContent := [(catalogKey data_source_id, cc)]
    (some { profile_file := data_source_id ++ ".yaml"
            catalog_name := replaceDashUnderscore data_source_id
            connector_type := cfg.stype },
     { st with
       profileFiles := setEntry data_source_id content st.profileFiles
       trace := st.trace ++ [FsOp.writeProfile data_source_id content] })

/-- Linear search of enable_data_source over the provider groups of the
catalog (connectivity_module.py lines 226-230). -/
def findSourceIn :
    List (String × List (String × SourceConfig)) → String → Option SourceConfig
  | [], _ => none
  | (_, sources) :: rest, data_source_id =>
    match sources.lookup data_source_id with
    | some cfg => some cfg
    | none => findSourceIn rest data_source_id

/-- Lookup of a source configuration in the static catalog. -/
def findSourceConfig (data_source_id : String) : Option SourceConfig :=
  findSourceIn SHARED_DATA_SOURCES data_source_id

/-- The connection_info dict of get_connection_info (connectivity_module.py
lines 318-359).  Keys absent in the Python dict for cloud-service sources
are modelled by the default field values. -/
structure ConnectionInfo where
  data_source_id : String
  name : String
  stype : String
  description : String
  status : String
  endpoint : String := ""
  port : Nat := 0
  tunnel_status : String := ""
  target_endpoint : String := ""
  deriving Repr, DecidableEq

/-- The string list used by the type dispatch of enable_data_source for
tunnel-backed sources. -/
def tunnelTypes : List String := ["postgresql", "mysql", "synapse"]

/-- The string list used by the type dispatch of enable_data_source for
cloud-service sources. -/
def cloudTypes : List String := ["s3", "bigquery"]

/-- get_connection_info (connectivity_module.py lines 318-359). -/
def get_connection_info (st : ConnState) (data_source_id : String) :
    Option ConnectionInfo :=
  match findSourceConfig data_source_id with
  | none => none
  | some cfg =>
    let statusStr :=
      if is_data_source_connected st data_source_id then "connected"
      else "disconnected"
    let base : ConnectionInfo :=
      { data_source_id := data_source_id
        name := cfg.name
        stype := cfg.stype
        description := cfg.description
        status := statusStr }
    if cfg.stype ∈ tunnelTypes then
      match st.tunnelFiles.lookup data_source_id with
      | some info =>
        some { base with
               endpoint := "localhost"
               port := info.local_port
               tunnel_status :=
                 if is_data_source_connected st data_source_id then "active"
                 else "inactive"
               target_endpoint :=
                 info.target_host ++ ":" ++ toString info.target_port }
      | none =>
        some { base with
               endpoint := "not connected"
               port := cfg.local_port
               tunnel_status := "inactive" }
    else some base

/-- The successful return dict of enable_data_source. -/
structure EnablePayload where
  data_source_id : String
  name : String
  stype : String
  status : String
  tunnel_info : Option TunnelInfo
  connection_profile : Option ProfileResult
  deriving Repr, DecidableEq

/-- Result of enable_data_source.  In Python, unknownSource, tunnelFailed and
unsupportedType are all returned as None after an echo; alreadyConnected
returns the get_connection_info dict; profileBuilderCrash stands for the
NameError raised when the catalog_config local is used unassigned. -/
inductive EnableResult where
  | unknownSource
  | alreadyConnected (info : Option ConnectionInfo)
  | connected (payload : EnablePayload)
  | tunnelFailed
  | profileBuilderCrash
  | unsupportedType
  deriving Repr, DecidableEq

/-- enable_data_source (connectivity_module.py lines 222-280). -/
def enable_data_source (env : Env) (st : ConnState) (data_source_id : String) :
    EnableResult × ConnState :=
  match findSourceConfig data_source_id with
  | none => (.unknownSource, st)
  | some cfg =>
    if is_data_source_connected st data_source_id then
      (.alreadyConnected (get_connection_info st data_source_id), st)
    else if cfg.stype ∈ tunnelTypes then
      match create_ssh_tunnel env st data_source_id cfg with
      | (none, st1) => (.tunnelFailed, st1)
      | (some info, st1) =>
        match create_starburst_connection_profile st1 data_source_id cfg info with
        | (none, st2) => (.profileBuilderCrash, st2)
        | (some prof, st2) =>
          (.connected
            { data_source_id := data_source_id
              name := cfg.name
              stype := cfg.stype
              status := "connected"
              tunnel_info := some info
              connection_profile := some prof }, st2)
    else if cfg.stype ∈ cloudTypes then
      match create_cloud_service_profile st data_source_id cfg with
      | (none, st1) => (.profileBuilderCrash, st1)
      | (some prof, st1) =>
        (.connected
          { data_source_id := data_source_id
            name := cfg.name
            stype := cfg.stype
            status := "connected"
            tunnel_info := none
            connection_profile := some prof }, st1)
    else (.unsupportedType, st)

/-- disable_data_source (connectivity_module.py lines 283-298): soft no-op
return when the source is not connected, otherwise stop the tunnel and
unlink the profile file if it exists. -/
def disable_data_source (st : ConnState) (data_source_id : String) : ConnState :=
  if is_data_source_connected st data_source_id = false then st
  else
    let st1 := stop_ssh_tunnel st data_source_id
    if (st1.profileFiles.lookup data_source_id).isSome then
      { st1 with
        profileFiles := removeEntry data_source_id st1.profileFiles
        trace := st1.trace ++ [FsOp.deleteProfile data_source_id] }
    else st1

/-- Body of the deletion loop of cleanup_inactive_tunnels for one inactive
source id: del active_tunnels[id] and unlink of the descriptor file if it
exists (connectivity_module.py lines 477-484).  The code does not call
tunnel.stop() here. -/
def cleanupOne (st : ConnState) (data_source_id : String) : ConnState :=
  let st1 :=
    { st with active_tunnels := removeEntry data_source_id st.active_tunnels }
  if (st1.tunnelFiles.lookup data_source_id).isSome then
    { st1 with
      tunnelFiles := removeEntry data_source_id st1.tunnelFiles
      trace := st1.trace ++ [FsOp.deleteTunnelDesc data_source_id] }
  else st1

/-- cleanup_inactive_tunnels (connectivity_module.py lines 467-484): collect
the ids of all registered tunnels whose is_alive is false, then delete each
from memory and disk.  This is one cycle of the health monitor loop
monitor_tunnel_health (lines 487-496). -/
def cleanup_inactive_tunnels (st : ConnState) : ConnState :=
  let inactive :=
    (st.active_tunnels.filter (fun p => !p.2.is_alive)).map Prod.fst
  inactive.foldl cleanupOne st

/-- The helper _get_next_available_port of shared_data_module.py (lines
330-343) scans at most 100 candidate ports; portScan models the for loop,
with the busy predicate telling which ports fail to bind. -/
def portScan (busy : Nat → Bool) : Nat → Nat → Option Nat
  | _, 0 => none
  | p, k + 1 => if busy p then portScan busy (p + 1) k else some p

/-- _get_next_available_port (shared_data_module.py lines 330-343): first
free port in [base_port, base_port + 100), else the fallback
base_port + 1000 returned without any error. -/
def get_next_available_port (busy : Nat → Bool) (base_port : Nat) : Nat :=
  match portScan busy base_port 100 with
  | some p => p
  | none => base_port + 1000

/-! Concrete fixtures used by witnesses and counterexamples. -/

/-- Empty initial state: no tunnels, no files, fresh process. -/
def st0 : ConnState :=
  { active_tunnels := []
    tunnelFiles := []
    profileFiles := []
    stoppedHandles := []
    nextHandle := 0
    trace := [] }

/-- Environment in which every stage of tunnel establishment succeeds. -/
def envGood : Env :=
  { sshKeyAvailable := true
    bastionReachable := fun _ => true
    startOutcome := StartOutcome.ok true
    now := 17 }

/-- Environment in which the bastion pre-flight check fails. -/
def envBastionDown : Env :=
  { sshKeyAvailable := true
    bastionReachable := fun _ => false
    startOutcome := StartOutcome.ok true
    now := 17 }

/-- The tunnel descriptor written by a successful enable of aws-postgres in
envGood (equals mkTunnelInfo envGood applied to the catalog entry). -/
def tInfo0 : TunnelInfo :=
  { data_source_id := "aws-postgres"
    bastion_host := "bastion-aws.platform.internal"
    target_host := "postgres-shared.platform.internal"
    target_port := 5432
    local_port := 5432
    created_at := 17
    status := "active" }

/-- The postgresql catalog property block for local port 5432. -/
def pgCatalogBlock : List (String × String) :=
  [("connector.name", "postgresql"),
   ("connection-url", "jdbc:postgresql://localhost:5432/postgres"),
   ("connection-user", "starburst_user"),
   ("connection-password", "$\x7bENV:POSTGRES_PASSWORD\x7d"),
   ("case-insensitive-name-matching", "true")]

/-- The profile content written for aws-postgres with local port 5432. -/
def pgProfileContent : ProfileContent :=
  [("catalog_aws_postgres", pgCatalogBlock)]

/-- State holding a stale profile file for aws-postgres, to exhibit
overwriting on regeneration. -/
def stOldProfile : ConnState :=
  { active_tunnels := []
    tunnelFiles := []
    profileFiles := [("aws-postgres", [("stale_profile", [])])]
    stoppedHandles := []
    nextHandle := 0
    trace := [] }

/-- State right after create_ssh_tunnel succeeds for aws-postgres from the
empty state in envGood. -/
def stT0 : ConnState :=
  { active_tunnels := [("aws-postgres", { handle := 0, is_alive := true })]
    tunnelFiles := [("aws-postgres", tInfo0)]
    profileFiles := []
    stoppedHandles := []
    nextHandle := 1
    trace := [FsOp.writeTunnelDesc "aws-postgres" tInfo0] }

/-- State after a process crash: the forwarding task is gone (empty registry)
while the tunnel descriptor and the profile file of aws-postgres are still on
disk. -/
def stCrash : ConnState :=
  { active_tunnels := []
    tunnelFiles := [("aws-postgres", tInfo0)]
    profileFiles := [("aws-postgres", pgProfileContent)]
    stoppedHandles := []
    nextHandle := 0
    trace := [] }

/-- State holding one registered tunnel for aws-postgres whose forwarding
task has just died (is_alive reads false), with its descriptor on disk. -/
def stDead : ConnState :=
  { active_tunnels := [("aws-postgres", { handle := 0, is_alive := false })]
    tunnelFiles := [("aws-postgres", tInfo0)]
    profileFiles := [("aws-postgres", pgProfileContent)]
    stoppedHandles := []
    nextHandle := 1
    trace := [] }

/-! Helper lemmas on association lists. -/

theorem lookup_setEntry_self {α : Type} (id : String) (v : α)
    (l : List (String × α)) : (setEntry id v l).lookup id = some v := by
  simp [setEntry, List.lookup]

theorem lookup_removeEntry_self {α : Type} (id : String)
    (l : List (String × α)) : (removeEntry id l).lookup id = none := by
  induction l with
  | nil => rfl
  | cons p rest ih =>
    obtain ⟨k, w⟩ := p
    by_cases hk : k = id
    · simpa [removeEntry, List.filter_cons, hk] using ih
    · have hb : (k != id) = true := by simp [hk]
      have hb2 : (id == k) = false := by
        simp [Ne.symm hk]
      simp only [removeEntry, List.filter_cons, hb, if_true, List.lookup, hb2]
      exact ih

theorem lookup_removeEntry_ne {α : Type} (id j : String)
    (l : List (String × α)) (h : j ≠ id) :
    (removeEntry id l).lookup j = l.lookup j := by
  induction l with
  | nil => rfl
  | cons p rest ih =>
    obtain ⟨k, w⟩ := p
    by_cases hk : k = id
    · subst hk
      have hb : (k != k) = false := by simp
      have hb2 : (j == k) = false := by simp [h]
      simp only [removeEntry, List.filter_cons, hb, if_false, List.lookup, hb2]
      exact ih
    · have hb : (k != id) = true := by simp [hk]
      by_cases hj : j = k
      · subst hj
        have hb2 : (j == j) = true := by simp
        simp [removeEntry, List.filter_cons, hb, List.lookup, hb2]
      · have hb2 : (j == k) = false := by simp [hj]
        simp only [removeEntry, List.filter_cons, hb, if_true, List.lookup,
          hb2]
        exact ih

theorem lookup_setEntry_ne {α : Type} (id j : String) (v : α)
    (l : List (String × α)) (h : j ≠ id) :
    (setEntry id v l).lookup j = l.lookup j := by
  have hb : (j == id) = false := by simp [h]
  simp only [setEntry, List.lookup, hb]
  exact lookup_removeEntry_ne id j l h

theorem removeEntry_of_lookup_none {α : Type} (id : String)
    (l : List (String × α)) (h : l.lookup id = none) :
    removeEntry id l = l := by
  induction l with
  | nil => rfl
  | cons p rest ih =>
    obtain ⟨k, w⟩ := p
    by_cases hk : id = k
    · subst hk
      have hb2 : (id == id) = true := by simp
      simp [List.lookup, hb2] at h
    · have hb2 : (id == k) = false := by simp [hk]
      have hrest : rest.lookup id = none := by
        simpa [List.lookup, hb2] using h
      have hb : (k != id) = true := by simp [Ne.symm hk]
      simp only [removeEntry, List.filter_cons, hb, if_true]
      rw [show List.filter (fun p => p.1 != id) rest = removeEntry id rest
        from rfl, ih hrest]

theorem lookup_some_mem {α : Type} (id : String) (v : α)
    (l : List (String × α)) (h : l.lookup id = some v) : (id, v) ∈ l := by
  induction l with
  | nil => simp [List.lookup] at h
  | cons p rest ih =>
    obtain ⟨k, w⟩ := p
    by_cases hk : id = k
    · subst hk
      have hb2 : (id == id) = true := by simp
      simp [List.lookup, hb2] at h
      simp [h]
    · have hb2 : (id == k) = false := by simp [hk]
      have hrest : rest.lookup id = some v := by
        simpa [List.lookup, hb2] using h
      exact List.mem_cons_of_mem _ (ih hrest)

theorem mem_lookup_of_nodup {α : Type} (id : String) (v : α)
    (l : List (String × α)) (hnd : (l.map Prod.fst).Nodup)
    (h : (id, v) ∈ l) : l.lookup id = some v := by
  induction l with
  | nil => simp at h
  | cons p rest ih =>
    obtain ⟨k, w⟩ := p
    rcases List.mem_cons.mp h with heq | hmem
    · have hk : id = k := congrArg Prod.fst heq
      have hv : v = w := congrArg Prod.snd heq
      have hb2 : (id == k) = true := by simp [hk]
      simp [List.lookup, hb2, hv]
    · have hkid : id ≠ k := by
        intro hcontra
        subst hcontra
        have hmemmap : id ∈ rest.map Prod.fst :=
          List.mem_map.mpr ⟨(id, v), hmem, rfl⟩
        exact (List.nodup_cons.mp hnd).1 hmemmap
      have hb2 : (id == k) = false := by simp [hkid]
      have hres := ih (List.nodup_cons.mp hnd).2 hmem
      simpa [List.lookup, hb2] using hres

/-! Helper lemmas about one health-monitor cycle. -/

theorem cleanupOne_active (st : ConnState) (j : String) :
    (cleanupOne st j).active_tunnels = removeEntry j st.active_tunnels := by
  simp only [cleanupOne]
  split <;> rfl

theorem cleanupOne_tunnelFiles (st : ConnState) (j : String) :
    (cleanupOne st j).tunnelFiles = removeEntry j st.tunnelFiles := by
  simp only [cleanupOne]
  split
  · rfl
  · rename_i hnone
    have : st.tunnelFiles.lookup j = none := by
      cases h : st.tunnelFiles.lookup j with
      | none => rfl
      | some x => simp [h] at hnone
    exact (removeEntry_of_lookup_none j st.tunnelFiles this).symm

theorem cleanupOne_profileFiles (st : ConnState) (j : String) :
    (cleanupOne st j).profileFiles = st.profileFiles := by
  simp only [cleanupOne]
  split <;> rfl

theorem cleanupOne_trace_mem (st : ConnState) (j : String) (op : FsOp)
    (h : op ∈ (cleanupOne st j).trace) :
    op ∈ st.trace ∨ op = FsOp.deleteTunnelDesc j := by
  simp only [cleanupOne] at h
  revert h
  split
  · intro h
    rcases List.mem_append.mp h with h1 | h2
    · exact Or.inl h1
    · exact Or.inr (List.mem_singleton.mp h2)
  · intro h
    exact Or.inl h

theorem foldl_cleanup_active (ids : List String) (st : ConnState) :
    (ids.foldl cleanupOne st).active_tunnels =
      ids.foldl (fun l j => removeEntry j l) st.active_tunnels := by
  induction ids generalizing st with
  | nil => rfl
  | cons j rest ih =>
    simp only [List.foldl_cons]
    rw [ih, cleanupOne_active]

theorem foldl_cleanup_tunnelFiles (ids : List String) (st : ConnState) :
    (ids.foldl cleanupOne st).tunnelFiles =
      ids.foldl (fun l j => removeEntry j l) st.tunnelFiles := by
  induction ids generalizing st with
  | nil => rfl
  | cons j rest ih =>
    simp only [List.foldl_cons]
    rw [ih, cleanupOne_tunnelFiles]

theorem foldl_cleanup_profileFiles (ids : List String) (st : ConnState) :
    (ids.foldl cleanupOne st).profileFiles = st.profileFiles := by
  induction ids generalizing st with
  | nil => rfl
  | cons j rest ih =>
    simp only [List.foldl_cons]
    rw [ih, cleanupOne_profileFiles]

theorem foldl_cleanup_trace_mem (ids : List String) (st : ConnState)
    (op : FsOp) (h : op ∈ (ids.foldl cleanupOne st).trace) :
    op ∈ st.trace ∨ ∃ j, j ∈ ids ∧ op = FsOp.deleteTunnelDesc j := by
  induction ids generalizing st with
  | nil => exact Or.inl h
  | cons j rest ih =>
    simp only [List.foldl_cons] at h
    rcases ih (cleanupOne st j) h with h1 | ⟨i, hi, hop⟩
    · rcases cleanupOne_trace_mem st j op h1 with h2 | h3
      · exact Or.inl h2
      · exact Or.inr ⟨j, List.mem_cons_self j rest, h3⟩
    · exact Or.inr ⟨i, List.mem_cons_of_mem _ hi, hop⟩

theorem lookup_foldl_removeEntry {α : Type} (ids : List String)
    (l : List (String × α)) (id : String) :
    (ids.foldl (fun acc j => removeEntry j acc) l).lookup id =
      if id ∈ ids then none else l.lookup id := by
  induction ids generalizing l with
  | nil => simp
  | cons j rest ih =>
    simp only [List.foldl_cons]
    rw [ih]
    by_cases hj : id = j
    · subst hj
      by_cases hr : id ∈ rest
      · simp [hr]
      · simp [hr, lookup_removeEntry_self]
    · by_cases hr : id ∈ rest
      · simp [hr, List.mem_cons, hj]
      · have hni : id ∉ j :: rest := by
          simp [hj, hr]
        simp [hr, hni, lookup_removeEntry_ne j id l hj]

/-- The ids collected by one cleanup cycle. -/
def inactiveIds (st : ConnState) : List String :=
  (st.active_tunnels.filter (fun p => !p.2.is_alive)).map Prod.fst

theorem cleanup_eq_foldl (st : ConnState) :
    cleanup_inactive_tunnels st = (inactiveIds st).foldl cleanupOne st := rfl

theorem mem_inactiveIds_of_dead (st : ConnState) (id : String) (t : Tunnel)
    (hl : st.active_tunnels.lookup id = some t) (hd : t.is_alive = false) :
    id ∈ inactiveIds st := by
  have hmem : (id, t) ∈ st.active_tunnels := lookup_some_mem id t _ hl
  have : (id, t) ∈ st.active_tunnels.filter (fun p => !p.2.is_alive) :=
    List.mem_filter.mpr ⟨hmem, by simp [hd]⟩
  exact List.mem_map.mpr ⟨(id, t), this, rfl⟩

theorem not_mem_inactiveIds_of_alive (st : ConnState) (id : String)
    (t : Tunnel) (hnd : (st.active_tunnels.map Prod.fst).Nodup)
    (hl : st.active_tunnels.lookup id = some t) (ha : t.is_alive = true) :
    id ∉ inactiveIds st := by
  intro hmem
  obtain ⟨p, hpf, hpfst⟩ := List.mem_map.mp hmem
  obtain ⟨hpmem, hpdead⟩ := List.mem_filter.mp hpf
  obtain ⟨pid, pt⟩ := p
  have hpid : pid = id := hpfst
  subst hpid
  have hlk := mem_lookup_of_nodup pid pt st.active_tunnels hnd hpmem
  rw [hl] at hlk
  have hpt : pt = t := by injection hlk.symm
  simp [hpt, ha] at hpdead

/-! Helper lemmas about the enable path. -/

theorem starburstCatalogConfig_isSome (stype : String) (p : Nat)
    (h : stype ∈ tunnelTypes) : (starburstCatalogConfig stype p).isSome := by
  simp [tunnelTypes] at h
  rcases h with h | h | h <;> subst h <;> simp [starburstCatalogConfig]

theorem findSourceIn_mem (groups : List (String × List (String × SourceConfig)))
    (id : String) (cfg : SourceConfig)
    (h : findSourceIn groups id = some cfg) :
    ∃ g, g ∈ groups ∧ (id, cfg) ∈ g.2 := by
  induction groups with
  | nil => simp [findSourceIn] at h
  | cons g rest ih =>
    obtain ⟨cloud, sources⟩ := g
    simp only [findSourceIn] at h
    cases hl : sources.lookup id with
    | some c =>
      rw [hl] at h
      have hc : c = cfg := by injection h
      subst hc
      exact ⟨(cloud, sources), List.mem_cons_self _ _,
        lookup_some_mem id c _ hl⟩
    | none =>
      rw [hl] at h
      obtain ⟨g, hg, hmem⟩ := ih h
      exact ⟨g, List.mem_cons_of_mem _ hg, hmem⟩

theorem findSourceConfig_types (id : String) (cfg : SourceConfig)
    (h : findSourceConfig id = some cfg) :
    cfg.stype ∈ ["postgresql", "mysql", "synapse", "s3", "bigquery"] := by
  obtain ⟨g, hg, hmem⟩ := findSourceIn_mem _ id cfg h
  have hall : ∀ g2 ∈ SHARED_DATA_SOURCES, ∀ p ∈ g2.2,
      p.2.stype ∈ ["postgresql", "mysql", "synapse", "s3", "bigquery"] := by
    decide
  exact hall g hg (id, cfg) hmem

/-- The state after a successful enable of a tunnel-backed source. -/
def enabledState (env : Env) (st : ConnState) (id : String)
    (cfg : SourceConfig) (cc : List (String × String)) : ConnState :=
  { active_tunnels :=
      setEntry id { handle := st.nextHandle, is_alive := true }
        st.active_tunnels
    tunnelFiles := setEntry id (mkTunnelInfo env id cfg) st.tunnelFiles
    profileFiles := setEntry id [(catalogKey id, cc)] st.profileFiles
    stoppedHandles := st.stoppedHandles
    nextHandle := st.nextHandle + 1
    trace := st.trace ++
      [FsOp.writeTunnelDesc id (mkTunnelInfo env id cfg),
       FsOp.writeProfile id [(catalogKey id, cc)]] }

/-- The payload returned by a successful enable of a tunnel-backed source. -/
def enabledPayload (env : Env) (id : String) (cfg : SourceConfig) :
    EnablePayload :=
  { data_source_id := id
    name := cfg.name
    stype := cfg.stype
    status := "connected"
    tunnel_info := some (mkTunnelInfo env id cfg)
    connection_profile :=
      some { profile_file := id ++ ".yaml"
             catalog_name := replaceDashUnderscore id
             connector_type := cfg.stype } }

/-- Full description of a successful enable of a tunnel-backed source: the
returned payload and the exact resulting state (one fresh forwarding task,
one descriptor write with status active, one direct profile write). -/
theorem enable_success_spec (env : Env) (st : ConnState) (id : String)
    (cfg : SourceConfig)
    (hfind : findSourceConfig id = some cfg)
    (htype : cfg.stype ∈ tunnelTypes)
    (hnot : is_data_source_connected st id = false)
    (hkey : env.sshKeyAvailable = true)
    (hreach : env.bastionReachable cfg.bastion_host = true)
    (hstart : env.startOutcome = StartOutcome.ok true) :
    ∃ cc, starburstCatalogConfig cfg.stype cfg.local_port = some cc ∧
      enable_data_source env st id =
        (EnableResult.connected (enabledPayload env id cfg),
         enabledState env st id cfg cc) := by
  obtain ⟨cc, hcc⟩ :=
    Option.isSome_iff_exists.mp (starburstCatalogConfig_isSome cfg.stype
      cfg.local_port htype)
  refine ⟨cc, hcc, ?_⟩
  have htun : create_ssh_tunnel env st id cfg =
      (some (mkTunnelInfo env id cfg),
        { st with
          nextHandle := st.nextHandle + 1
          tunnelFiles := setEntry id (mkTunnelInfo env id cfg) st.tunnelFiles
          trace := st.trace ++ [FsOp.writeTunnelDesc id (mkTunnelInfo env id cfg)]
          active_tunnels :=
            setEntry id { handle := st.nextHandle, is_alive := true }
              st.active_tunnels }) := by
    simp [create_ssh_tunnel, hkey, hreach, hstart]
  have hprof : starburstCatalogConfig cfg.stype
      (mkTunnelInfo env id cfg).local_port = some cc := hcc
  simp only [enable_data_source, hfind, hnot, Bool.false_eq_true, if_false,
    if_pos htype, htun, create_starburst_connection_profile, hprof]
  simp [enabledPayload, enabledState, List.append_assoc]

theorem enabledState_connected (env : Env) (st : ConnState) (id : String)
    (cfg : SourceConfig) (cc : List (String × String)) :
    is_data_source_connected (enabledState env st id cfg cc) id = true := by
  have htf : (enabledState env st id cfg cc).tunnelFiles.lookup id
      = some (mkTunnelInfo env id cfg) := lookup_setEntry_self _ _ _
  have hat : (enabledState env st id cfg cc).active_tunnels.lookup id
      = some { handle := st.nextHandle, is_alive := true } :=
    lookup_setEntry_self _ _ _
  simp [is_data_source_connected, htf, hat]

/-- The connection_info dict returned for a live tunnel-backed source. -/
def enabledConnectionInfo (id : String) (cfg : SourceConfig) : ConnectionInfo :=
  { data_source_id := id
    name := cfg.name
    stype := cfg.stype
    description := cfg.description
    status := "connected"
    endpoint := "localhost"
    port := cfg.local_port
    tunnel_status := "active"
    target_endpoint := cfg.target_host ++ ":" ++ toString cfg.target_port }

theorem get_connection_info_enabledState (env : Env) (st : ConnState)
    (id : String) (cfg : SourceConfig) (cc : List (String × String))
    (hfind : findSourceConfig id = some cfg)
    (htype : cfg.stype ∈ tunnelTypes) :
    get_connection_info (enabledState env st id cfg cc) id =
      some (enabledConnectionInfo id cfg) := by
  have htf : (enabledState env st id cfg cc).tunnelFiles.lookup id
      = some (mkTunnelInfo env id cfg) := lookup_setEntry_self _ _ _
  have hconn := enabledState_connected env st id cfg cc
  simp [get_connection_info, hfind, hconn, if_pos htype, htf, mkTunnelInfo,
    enabledConnectionInfo]

/-- C1: Enable is idempotent.  If a source with a tunnel-backed type is
enabled successfully, then a second Enable call in any environment returns
an already-connected result reporting the same local port as the record the
first call created, and leaves the state (registry, forwarding tasks,
handle counter, files, trace) exactly unchanged: no second forwarding task
and no new registry entry is created. -/
theorem c1_enable_idempotent (env env2 : Env) (st : ConnState) (id : String)
    (cfg : SourceConfig)
    (hfind : findSourceConfig id = some cfg)
    (htype : cfg.stype ∈ tunnelTypes)
    (hnot : is_data_source_connected st id = false)
    (hkey : env.sshKeyAvailable = true)
    (hreach : env.bastionReachable cfg.bastion_host = true)
    (hstart : env.startOutcome = StartOutcome.ok true) :
    (enable_data_source env st id).1 =
      EnableResult.connected (enabledPayload env id cfg) ∧
    enable_data_source env2 (enable_data_source env st id).2 id =
      (EnableResult.alreadyConnected (some (enabledConnectionInfo id cfg)),
       (enable_data_source env st id).2) ∧
    (enabledConnectionInfo id cfg).port = cfg.local_port ∧
    (enabledPayload env id cfg).tunnel_info = some (mkTunnelInfo env id cfg) ∧
    (mkTunnelInfo env id cfg).local_port = cfg.local_port := by
  obtain ⟨cc, hcc, henable⟩ :=
    enable_success_spec env st id cfg hfind htype hnot hkey hreach hstart
  have hconn := enabledState_connected env st id cfg cc
  have hgci := get_connection_info_enabledState env st id cfg cc hfind htype
  refine ⟨by rw [henable], ?_, rfl, rfl, rfl⟩
  rw [henable]
  simp [enable_data_source, hfind, hconn, hgci]

theorem c1_enable_idempotent_witness :
    (findSourceConfig "aws-postgres" = some aws_postgres_cfg ∧
     aws_postgres_cfg.stype ∈ tunnelTypes ∧
     is_data_source_connected st0 "aws-postgres" = false) ∧
    ((enable_data_source envGood st0 "aws-postgres").1 =
      EnableResult.connected (enabledPayload envGood "aws-postgres"
        aws_postgres_cfg) ∧
     enable_data_source envGood
        (enable_data_source envGood st0 "aws-postgres").2 "aws-postgres" =
      (EnableResult.alreadyConnected
        (some (enabledConnectionInfo "aws-postgres" aws_postgres_cfg)),
       (enable_data_source envGood st0 "aws-postgres").2) ∧
     (enabledConnectionInfo "aws-postgres" aws_postgres_cfg).port =
       aws_postgres_cfg.local_port ∧
     (enabledPayload envGood "aws-postgres" aws_postgres_cfg).tunnel_info =
       some (mkTunnelInfo envGood "aws-postgres" aws_postgres_cfg) ∧
     (mkTunnelInfo envGood "aws-postgres" aws_postgres_cfg).local_port =
       aws_postgres_cfg.local_port) :=
  ⟨⟨by decide, by decide, by decide⟩,
   c1_enable_idempotent envGood envGood st0 "aws-postgres" aws_postgres_cfg
     (by decide) (by decide) (by decide) rfl rfl rfl⟩

theorem create_ssh_tunnel_failure (env : Env) (st : ConnState) (id : String)
    (cfg : SourceConfig)
    (hfail : env.sshKeyAvailable = false ∨
             env.bastionReachable cfg.bastion_host = false ∨
             env.startOutcome = StartOutcome.exn ∨
             env.startOutcome = StartOutcome.ok false) :
    (create_ssh_tunnel env st id cfg).1 = none ∧
    (create_ssh_tunnel env st id cfg).2.active_tunnels = st.active_tunnels ∧
    (create_ssh_tunnel env st id cfg).2.tunnelFiles = st.tunnelFiles ∧
    (create_ssh_tunnel env st id cfg).2.profileFiles = st.profileFiles ∧
    (create_ssh_tunnel env st id cfg).2.trace = st.trace ∧
    (env.sshKeyAvailable = true →
      env.bastionReachable cfg.bastion_host = true →
      env.startOutcome = StartOutcome.ok false →
      (create_ssh_tunnel env st id cfg).2.stoppedHandles =
        st.nextHandle :: st.stoppedHandles) := by
  by_cases hkey : env.sshKeyAvailable = false
  · simp [create_ssh_tunnel, hkey]
  · have hkey2 : env.sshKeyAvailable = true := by
      simpa using hkey
    by_cases hreach : env.bastionReachable cfg.bastion_host = false
    · simp [create_ssh_tunnel, hkey2, hreach]
    · have hreach2 : env.bastionReachable cfg.bastion_host = true := by
        simpa using hreach
      rcases hfail with h | h | h | h
      · rw [hkey2] at h
        simp at h
      · rw [hreach2] at h
        simp at h
      · simp [create_ssh_tunnel, hkey2, hreach2, h]
      · simp [create_ssh_tunnel, hkey2, hreach2, h]

/-- C2: a failed Enable of a tunnel-backed source (missing credentials,
unreachable bastion, exception during tunnel establishment, or a forwarder
that is not alive after start) leaves no partial state: the in-memory
registry, the tunnel-descriptor directory, the profile directory and the
file-operation trace are all exactly as before the call, and in the
dead-after-start case the partially opened forwarder is stopped before the
error return. -/
theorem c2_enable_failure_no_partial_state (env : Env) (st : ConnState)
    (id : String) (cfg : SourceConfig)
    (hfind : findSourceConfig id = some cfg)
    (htype : cfg.stype ∈ tunnelTypes)
    (hnot : is_data_source_connected st id = false)
    (hfail : env.sshKeyAvailable = false ∨
             env.bastionReachable cfg.bastion_host = false ∨
             env.startOutcome = StartOutcome.exn ∨
             env.startOutcome = StartOutcome.ok false) :
    (enable_data_source env st id).1 = EnableResult.tunnelFailed ∧
    (enable_data_source env st id).2.active_tunnels = st.active_tunnels ∧
    (enable_data_source env st id).2.tunnelFiles = st.tunnelFiles ∧
    (enable_data_source env st id).2.profileFiles = st.profileFiles ∧
    (enable_data_source env st id).2.trace = st.trace ∧
    (env.sshKeyAvailable = true →
      env.bastionReachable cfg.bastion_host = true →
      env.startOutcome = StartOutcome.ok false →
      (enable_data_source env st id).2.stoppedHandles =
        st.nextHandle :: st.stoppedHandles) := by
  obtain ⟨h1, h2, h3, h4, h5, h6⟩ :=
    create_ssh_tunnel_failure env st id cfg hfail
  have he : enable_data_source env st id =
      (EnableResult.tunnelFailed, (create_ssh_tunnel env st id cfg).2) := by
    simp only [enable_data_source, hfind, hnot, Bool.false_eq_true, if_false,
      if_pos htype]
    rcases heq : create_ssh_tunnel env st id cfg with ⟨o, st1⟩
    rw [heq] at h1
    simp only at h1
    subst h1
    rfl
  rw [he]
  exact ⟨rfl, h2, h3, h4, h5, h6⟩

theorem c2_enable_failure_no_partial_state_witness :
    (findSourceConfig "aws-postgres" = some aws_postgres_cfg ∧
     envBastionDown.bastionReachable aws_postgres_cfg.bastion_host = false) ∧
    ((enable_data_source envBastionDown st0 "aws-postgres").1 =
       EnableResult.tunnelFailed ∧
     (enable_data_source envBastionDown st0 "aws-postgres").2.active_tunnels =
       st0.active_tunnels ∧
     (enable_data_source envBastionDown st0 "aws-postgres").2.tunnelFiles =
       st0.tunnelFiles ∧
     (enable_data_source envBastionDown st0 "aws-postgres").2.profileFiles =
       st0.profileFiles ∧
     (enable_data_source envBastionDown st0 "aws-postgres").2.trace =
       st0.trace ∧
     (envBastionDown.sshKeyAvailable = true →
       envBastionDown.bastionReachable aws_postgres_cfg.bastion_host = true →
       envBastionDown.startOutcome = StartOutcome.ok false →
       (enable_data_source envBastionDown st0 "aws-postgres").2.stoppedHandles =
         st0.nextHandle :: st0.stoppedHandles)) :=
  ⟨⟨by decide, rfl⟩,
   c2_enable_failure_no_partial_state envBastionDown st0 "aws-postgres"
     aws_postgres_cfg (by decide) (by decide) (by decide)
     (Or.inr (Or.inl rfl))⟩

theorem portScan_some_spec (busy : Nat → Bool) (fuel : Nat) :
    ∀ start p, portScan busy start fuel = some p →
      start ≤ p ∧ p < start + fuel ∧ busy p = false ∧
      ∀ q, start ≤ q → q < p → busy q = true := by
  induction fuel with
  | zero =>
    intro start p h
    simp [portScan] at h
  | succ k ih =>
    intro start p h
    simp only [portScan] at h
    by_cases hb : busy start = true
    · rw [if_pos hb] at h
      obtain ⟨h1, h2, h3, h4⟩ := ih (start + 1) p h
      refine ⟨by omega, by omega, h3, ?_⟩
      intro q hq1 hq2
      by_cases hqs : q = start
      · subst hqs
        exact hb
      · exact h4 q (by omega) hq2
    · rw [if_neg hb] at h
      have hp : start = p := by injection h
      subst hp
      refine ⟨Nat.le_refl _, by omega, by simpa using hb, ?_⟩
      intro q hq1 hq2
      exact absurd hq2 (by omega)

theorem create_ssh_tunnel_success_inv (env : Env) (st : ConnState)
    (id : String) (cfg : SourceConfig) (info : TunnelInfo) (st1 : ConnState)
    (h : create_ssh_tunnel env st id cfg = (some info, st1)) :
    info = mkTunnelInfo env id cfg := by
  by_cases hkey : env.sshKeyAvailable = false
  · simp [create_ssh_tunnel, hkey] at h
  · have hkey2 : env.sshKeyAvailable = true := by simpa using hkey
    by_cases hreach : env.bastionReachable cfg.bastion_host = false
    · simp [create_ssh_tunnel, hkey2, hreach] at h
    · have hreach2 : env.bastionReachable cfg.bastion_host = true := by
        simpa using hreach
      cases hso : env.startOutcome with
      | exn => simp [create_ssh_tunnel, hkey2, hreach2, hso] at h
      | ok alive =>
        cases alive
        · simp [create_ssh_tunnel, hkey2, hreach2, hso] at h
        · simp [create_ssh_tunnel, hkey2, hreach2, hso] at h
          exact h.1.symm

/-- C3 counterexample: the claim asserts the port search fails with
NoPortAvailable when its bounded attempts are exhausted.  In the code, with
every port busy, the 100 scan attempts are exhausted (portScan returns
none) and yet _get_next_available_port returns the port number
base_port + 1000 = 6432 as if it were a selected port; no error value
exists.  Moreover the tunnel creation path never scans at all (see the
amended theorem). -/
theorem c3_counterexample :
    portScan (fun _ => true) 5432 100 = none ∧
    get_next_available_port (fun _ => true) 5432 = 6432 := by
  constructor
  · decide
  · decide

/-- C3 amended: the tunnel created by Enable always binds exactly the
configured default local port of the source (the recorded local_port equals
the catalog value; no scanning happens on this path).  Separately, the
port-scan helper of the shared-data module returns the first non-busy port
found by a linear scan of at most 100 attempts starting at the base port,
and when all 100 attempts are exhausted it returns base + 1000 without
failing. -/
theorem c3_amended_port_selection (env : Env) (st st1 : ConnState)
    (id : String) (cfg : SourceConfig) (info : TunnelInfo)
    (busy : Nat → Bool) (base p : Nat)
    (htun : create_ssh_tunnel env st id cfg = (some info, st1))
    (hscan : portScan busy base 100 = some p) :
    info.local_port = cfg.local_port ∧
    get_next_available_port busy base = p ∧
    base ≤ p ∧ p < base + 100 ∧ busy p = false ∧
    (∀ q, base ≤ q → q < p → busy q = true) ∧
    (∀ busy2 base2, portScan busy2 base2 100 = none →
      get_next_available_port busy2 base2 = base2 + 1000) := by
  obtain ⟨h1, h2, h3, h4⟩ := portScan_some_spec busy 100 base p hscan
  have hinfo := create_ssh_tunnel_success_inv env st id cfg info st1 htun
  refine ⟨by rw [hinfo]; rfl, ?_, h1, h2, h3, h4, ?_⟩
  · simp [get_next_available_port, hscan]
  · intro busy2 base2 hnone
    simp [get_next_available_port, hnone]

theorem c3_amended_port_selection_witness :
    (create_ssh_tunnel envGood st0 "aws-postgres" aws_postgres_cfg =
       (some tInfo0, stT0) ∧
     portScan (fun q => decide (q = 5432)) 5432 100 = some 5433) ∧
    tInfo0.local_port = aws_postgres_cfg.local_port ∧
    get_next_available_port (fun q => decide (q = 5432)) 5432 = 5433 :=
  ⟨⟨by decide, by decide⟩,
   (c3_amended_port_selection envGood st0 stT0 "aws-postgres" aws_postgres_cfg
      tInfo0 (fun q => decide (q = 5432)) 5432 5433 (by decide) (by decide)).1,
   (c3_amended_port_selection envGood st0 stT0 "aws-postgres" aws_postgres_cfg
      tInfo0 (fun q => decide (q = 5432)) 5432 5433 (by decide)
      (by decide)).2.1⟩

/-- C4 counterexample: the claim asserts the Health Monitor never removes a
record after a single failed liveness check and waits for two consecutive
failing cycles.  In the code, one cleanup_inactive_tunnels cycle over a
state holding a registered tunnel whose is_alive reads false removes the
record and its descriptor file immediately, on the first failed check. -/
theorem c4_counterexample :
    stDead.active_tunnels.lookup "aws-postgres" =
      some { handle := 0, is_alive := false } ∧
    (cleanup_inactive_tunnels stDead).active_tunnels.lookup "aws-postgres" =
      none ∧
    (cleanup_inactive_tunnels stDead).tunnelFiles.lookup "aws-postgres" =
      none := by
  refine ⟨by decide, by decide, by decide⟩

/-- C4 amended: the Health Monitor removes a record on the first monitoring
cycle in which its liveness check fails (hence certainly within two
cycles), deleting both the registry entry and the persisted descriptor so
that persisted state matches memory; a record whose liveness check passes
is kept untouched, registry entry and descriptor file alike. -/
theorem c4_amended_cleanup (st : ConnState) (id : String) (t : Tunnel)
    (hnd : (st.active_tunnels.map Prod.fst).Nodup)
    (hl : st.active_tunnels.lookup id = some t) :
    (t.is_alive = false →
      (cleanup_inactive_tunnels st).active_tunnels.lookup id = none ∧
      (cleanup_inactive_tunnels st).tunnelFiles.lookup id = none ∧
      (cleanup_inactive_tunnels
        (cleanup_inactive_tunnels st)).active_tunnels.lookup id = none ∧
      (cleanup_inactive_tunnels
        (cleanup_inactive_tunnels st)).tunnelFiles.lookup id = none) ∧
    (t.is_alive = true →
      (cleanup_inactive_tunnels st).active_tunnels.lookup id = some t ∧
      (cleanup_inactive_tunnels st).tunnelFiles.lookup id =
        st.tunnelFiles.lookup id) := by
  constructor
  · intro hd
    have hmem := mem_inactiveIds_of_dead st id t hl hd
    have hact : (cleanup_inactive_tunnels st).active_tunnels.lookup id
        = none := by
      rw [cleanup_eq_foldl, foldl_cleanup_active, lookup_foldl_removeEntry,
        if_pos hmem]
    have hfil : (cleanup_inactive_tunnels st).tunnelFiles.lookup id
        = none := by
      rw [cleanup_eq_foldl, foldl_cleanup_tunnelFiles,
        lookup_foldl_removeEntry, if_pos hmem]
    refine ⟨hact, hfil, ?_, ?_⟩
    · rw [cleanup_eq_foldl, foldl_cleanup_active, lookup_foldl_removeEntry]
      split
      · rfl
      · exact hact
    · rw [cleanup_eq_foldl, foldl_cleanup_tunnelFiles,
        lookup_foldl_removeEntry]
      split
      · rfl
      · exact hfil
  · intro ha
    have hnotmem := not_mem_inactiveIds_of_alive st id t hnd hl ha
    constructor
    · rw [cleanup_eq_foldl, foldl_cleanup_active, lookup_foldl_removeEntry,
        if_neg hnotmem]
      exact hl
    · rw [cleanup_eq_foldl, foldl_cleanup_tunnelFiles,
        lookup_foldl_removeEntry, if_neg hnotmem]

theorem c4_amended_cleanup_witness :
    ((stDead.active_tunnels.map Prod.fst).Nodup ∧
     stDead.active_tunnels.lookup "aws-postgres" =
       some { handle := 0, is_alive := false }) ∧
    ((Tunnel.is_alive { handle := 0, is_alive := false } = false →
      (cleanup_inactive_tunnels stDead).active_tunnels.lookup "aws-postgres" =
        none ∧
      (cleanup_inactive_tunnels stDead).tunnelFiles.lookup "aws-postgres" =
        none ∧
      (cleanup_inactive_tunnels
        (cleanup_inactive_tunnels stDead)).active_tunnels.lookup
        "aws-postgres" = none ∧
      (cleanup_inactive_tunnels
        (cleanup_inactive_tunnels stDead)).tunnelFiles.lookup
        "aws-postgres" = none) ∧
     (Tunnel.is_alive { handle := 0, is_alive := false } = true →
      (cleanup_inactive_tunnels stDead).active_tunnels.lookup "aws-postgres" =
        some { handle := 0, is_alive := false } ∧
      (cleanup_inactive_tunnels stDead).tunnelFiles.lookup "aws-postgres" =
        stDead.tunnelFiles.lookup "aws-postgres")) :=
  ⟨⟨by decide, by decide⟩,
   c4_amended_cleanup stDead "aws-postgres" { handle := 0, is_alive := false }
     (by decide) (by decide)⟩

/-- C5: behavior of the code at the stale-tunnel input.  After a process
crash the forwarding task is gone (empty in-memory registry) while the
descriptor and profile files of aws-postgres remain.  The claim (and the
spec) require Enable to detect the staleness through a failing liveness
check and re-establish a fresh tunnel; the code instead reports the source
as connected, because is_data_source_connected falls through to the
profile-file existence check when the id is absent from the in-memory dict,
and Enable short-circuits with a false already-connected result, leaving
the state untouched and creating no fresh tunnel. -/
theorem c5_stale_tunnel_false_already_connected :
    stCrash.active_tunnels = [] ∧
    (stCrash.tunnelFiles.lookup "aws-postgres").isSome = true ∧
    (stCrash.profileFiles.lookup "aws-postgres").isSome = true ∧
    is_data_source_connected stCrash "aws-postgres" = true ∧
    enable_data_source envGood stCrash "aws-postgres" =
      (EnableResult.alreadyConnected
        (get_connection_info stCrash "aws-postgres"), stCrash) ∧
    get_connection_info stCrash "aws-postgres" =
      some (enabledConnectionInfo "aws-postgres" aws_postgres_cfg) ∧
    (enable_data_source envGood stCrash "aws-postgres").2.nextHandle =
      stCrash.nextHandle := by
  refine ⟨rfl, by decide, by decide, by decide, by decide, by decide,
    by decide⟩

/-- C6: disabling a source that has no registered record at all (no
in-memory registry entry, no descriptor file, no profile file, that is a
source never enabled or already disabled) is a no-op success: the state is
returned completely unchanged, so no file is deleted and the registry is
untouched, and no error path is taken (the Python function simply returns
after an informational echo). -/
theorem c6_disable_never_enabled_noop (st : ConnState) (id : String)
    (h1 : st.active_tunnels.lookup id = none)
    (h2 : st.tunnelFiles.lookup id = none)
    (h3 : st.profileFiles.lookup id = none) :
    disable_data_source st id = st := by
  have hconn : is_data_source_connected st id = false := by
    simp [is_data_source_connected, h1, h2, h3]
  simp [disable_data_source, hconn]

theorem c6_disable_never_enabled_noop_witness :
    (st0.active_tunnels.lookup "aws-postgres" = none ∧
     st0.tunnelFiles.lookup "aws-postgres" = none ∧
     st0.profileFiles.lookup "aws-postgres" = none) ∧
    disable_data_source st0 "aws-postgres" = st0 :=
  ⟨⟨rfl, rfl, rfl⟩,
   c6_disable_never_enabled_noop st0 "aws-postgres" rfl rfl rfl⟩

/-- C7 counterexample: the claim asserts every profile regeneration writes
to a temporary path and then renames it into place.  In the code, writing
the profile for aws-postgres performs exactly one direct write of the
profile file: the recorded file-system trace is a single writeProfile
operation and contains neither a temporary-file write nor a rename. -/
theorem c7_counterexample :
    ((create_starburst_connection_profile st0 "aws-postgres" aws_postgres_cfg
        tInfo0).2).trace =
      [FsOp.writeProfile "aws-postgres" pgProfileContent] ∧
    (((create_starburst_connection_profile st0 "aws-postgres" aws_postgres_cfg
        tInfo0).2).trace.all
      (fun op => match op with
        | FsOp.renameFile _ _ => false
        | FsOp.writeTempFile _ _ => false
        | _ => true)) = true := by
  exact ⟨by decide, by decide⟩

/-- C7 amended: profile generation is re-entrant — regenerating the profile
of a source replaces any prior profile entry with the fresh content (last
write wins) — but the overwrite is a single direct in-place write of the
profile file: the only file-system operation appended to the trace is one
writeProfile, with no temporary path and no rename, so atomicity against a
concurrent reader is not provided by the mechanism. -/
theorem c7_amended_profile_direct_overwrite (st : ConnState) (id : String)
    (cfg : SourceConfig) (info : TunnelInfo) (cc : List (String × String))
    (hcc : starburstCatalogConfig cfg.stype info.local_port = some cc) :
    (create_starburst_connection_profile st id cfg info).2.profileFiles.lookup
        id = some [(catalogKey id, cc)] ∧
    (create_starburst_connection_profile st id cfg info).1 =
      some { profile_file := id ++ ".yaml"
             catalog_name := replaceDashUnderscore id
             connector_type := cfg.stype } ∧
    (create_starburst_connection_profile st id cfg info).2.trace =
      st.trace ++ [FsOp.writeProfile id [(catalogKey id, cc)]] := by
  refine ⟨?_, ?_, ?_⟩ <;>
    simp [create_starburst_connection_profile, hcc, lookup_setEntry_self]

theorem c7_amended_profile_direct_overwrite_witness :
    (starburstCatalogConfig aws_postgres_cfg.stype tInfo0.local_port =
       some pgCatalogBlock ∧
     stOldProfile.profileFiles.lookup "aws-postgres" =
       some [("stale_profile", [])]) ∧
    ((create_starburst_connection_profile stOldProfile "aws-postgres"
        aws_postgres_cfg tInfo0).2.profileFiles.lookup "aws-postgres" =
       some [(catalogKey "aws-postgres", pgCatalogBlock)] ∧
     (create_starburst_connection_profile stOldProfile "aws-postgres"
        aws_postgres_cfg tInfo0).1 =
       some { profile_file := "aws-postgres" ++ ".yaml"
              catalog_name := replaceDashUnderscore "aws-postgres"
              connector_type := aws_postgres_cfg.stype } ∧
     (create_starburst_connection_profile stOldProfile "aws-postgres"
        aws_postgres_cfg tInfo0).2.trace =
       stOldProfile.trace ++
         [FsOp.writeProfile "aws-postgres"
           [(catalogKey "aws-postgres", pgCatalogBlock)]]) :=
  ⟨⟨by decide, by decide⟩,
   c7_amended_profile_direct_overwrite stOldProfile "aws-postgres"
     aws_postgres_cfg tInfo0 pgCatalogBlock (by decide)⟩

/-- C8 counterexample: after a successful Enable of aws-postgres, the
persisted profile consists solely of the catalog block keyed
catalog_aws_postgres; it contains no connection block at all, hence no
connection.port field whose value could equal the recorded local port.
The local port appears only embedded inside the connection-url property of
the catalog block. -/
theorem c8_counterexample :
    (enable_data_source envGood st0 "aws-postgres").2.profileFiles.lookup
        "aws-postgres" = some pgProfileContent ∧
    pgProfileContent.lookup "connection" = none ∧
    (pgProfileContent.lookup "catalog_aws_postgres").isSome = true := by
  exact ⟨by decide, by decide, by decide⟩

/-- C8 amended: for every tunnel-backed source, a successful Enable
persists a profile consisting of exactly one catalog block, keyed by the
dash-to-underscore transformed source id, whose content is the fixed
template selected by the protocol kind of the source, instantiated with the
local port recorded in the tunnel record (which equals the configured
default local port); the port is embedded in the connection-url property of
that block rather than exposed as a connection.port field. -/
theorem c8_amended_profile_roundtrip (env : Env) (st : ConnState)
    (id : String) (cfg : SourceConfig) (cc : List (String × String))
    (hfind : findSourceConfig id = some cfg)
    (htype : cfg.stype ∈ tunnelTypes)
    (hnot : is_data_source_connected st id = false)
    (hkey : env.sshKeyAvailable = true)
    (hreach : env.bastionReachable cfg.bastion_host = true)
    (hstart : env.startOutcome = StartOutcome.ok true)
    (hcc : starburstCatalogConfig cfg.stype cfg.local_port = some cc) :
    (enable_data_source env st id).1 =
      EnableResult.connected (enabledPayload env id cfg) ∧
    (enabledPayload env id cfg).tunnel_info = some (mkTunnelInfo env id cfg) ∧
    (mkTunnelInfo env id cfg).local_port = cfg.local_port ∧
    (enable_data_source env st id).2.profileFiles.lookup id =
      some [(catalogKey id, cc)] := by
  obtain ⟨cc2, hcc2, henable⟩ :=
    enable_success_spec env st id cfg hfind htype hnot hkey hreach hstart
  have hcceq : cc2 = cc := by
    rw [hcc] at hcc2
    injection hcc2.symm
  subst hcceq
  refine ⟨by rw [henable], rfl, rfl, ?_⟩
  rw [henable]
  exact lookup_setEntry_self _ _ _

theorem c8_amended_profile_roundtrip_witness :
    (findSourceConfig "aws-postgres" = some aws_postgres_cfg ∧
     starburstCatalogConfig aws_postgres_cfg.stype
       aws_postgres_cfg.local_port = some pgCatalogBlock) ∧
    ((enable_data_source envGood st0 "aws-postgres").1 =
       EnableResult.connected
         (enabledPayload envGood "aws-postgres" aws_postgres_cfg) ∧
     (enabledPayload envGood "aws-postgres" aws_postgres_cfg).tunnel_info =
       some (mkTunnelInfo envGood "aws-postgres" aws_postgres_cfg) ∧
     (mkTunnelInfo envGood "aws-postgres" aws_postgres_cfg).local_port =
       aws_postgres_cfg.local_port ∧
     (enable_data_source envGood st0 "aws-postgres").2.profileFiles.lookup
       "aws-postgres" =
       some [(catalogKey "aws-postgres", pgCatalogBlock)]) :=
  ⟨⟨by decide, by decide⟩,
   c8_amended_profile_roundtrip envGood st0 "aws-postgres" aws_postgres_cfg
     pgCatalogBlock (by decide) (by decide) (by decide) rfl rfl rfl
     (by decide)⟩

theorem cloudCatalogConfig_isSome (cfg : SourceConfig)
    (h : cfg.stype ∈ cloudTypes) : (cloudCatalogConfig cfg).isSome := by
  simp [cloudTypes] at h
  rcases h with h | h <;> simp [cloudCatalogConfig, h]

theorem enable_result_shape (env : Env) (st : ConnState) (id : String) :
    (enable_data_source env st id).1 ≠ EnableResult.unsupportedType ∧
    (enable_data_source env st id).1 ≠ EnableResult.profileBuilderCrash := by
  cases hf : findSourceConfig id with
  | none =>
    simp [enable_data_source, hf]
  | some cfg =>
    have h5 := findSourceConfig_types id cfg hf
    by_cases hconn : is_data_source_connected st id = true
    · simp [enable_data_source, hf, hconn]
    · have hconn2 : is_data_source_connected st id = false := by
        simpa using hconn
      by_cases ht : cfg.stype ∈ tunnelTypes
      · rcases hc : create_ssh_tunnel env st id cfg with ⟨o, st1⟩
        cases o with
        | none =>
          simp [enable_data_source, hf, hconn2, if_pos ht, hc]
        | some info =>
          obtain ⟨cc, hcc⟩ := Option.isSome_iff_exists.mp
            (starburstCatalogConfig_isSome cfg.stype info.local_port ht)
          simp [enable_data_source, hf, hconn2, if_pos ht, hc,
            create_starburst_connection_profile, hcc]
      · by_cases hcl : cfg.stype ∈ cloudTypes
        · obtain ⟨cc, hcc⟩ := Option.isSome_iff_exists.mp
            (cloudCatalogConfig_isSome cfg hcl)
          simp [enable_data_source, hf, hconn2, if_neg ht, if_pos hcl,
            create_cloud_service_profile, hcc]
        · exfalso
          simp [tunnelTypes] at ht
          simp [cloudTypes] at hcl
          simp [ht.1, ht.2.1, ht.2.2, hcl.1, hcl.2] at h5

/-- C9: every source identifier in the static catalog SHARED_DATA_SOURCES
has one of the five supported types (postgresql, mysql, synapse, s3,
bigquery); consequently the unsupported-data-source-type branch of Enable
is unreachable for every identifier, and the catalog_config variable of the
profile builders is always assigned before use when reached from Enable
(the modelled NameError result profileBuilderCrash is likewise
unreachable). -/
theorem c9_catalog_types_safe :
    (∀ g, g ∈ SHARED_DATA_SOURCES → ∀ p, p ∈ g.2 →
      p.2.stype ∈ ["postgresql", "mysql", "synapse", "s3", "bigquery"]) ∧
    (∀ env st id,
      (enable_data_source env st id).1 ≠ EnableResult.unsupportedType) ∧
    (∀ env st id,
      (enable_data_source env st id).1 ≠ EnableResult.profileBuilderCrash) :=
  ⟨by decide,
   fun env st id => (enable_result_shape env st id).1,
   fun env st id => (enable_result_shape env st id).2⟩

theorem c9_catalog_types_safe_witness :
    aws_postgres_cfg.stype ∈
      ["postgresql", "mysql", "synapse", "s3", "bigquery"] ∧
    (enable_data_source envGood st0 "not-a-source").1 ≠
      EnableResult.unsupportedType ∧
    (enable_data_source envGood st0 "aws-postgres").1 ≠
      EnableResult.profileBuilderCrash :=
  ⟨c9_catalog_types_safe.1
     ("aws", [("aws-postgres", aws_postgres_cfg),
              ("aws-mysql", aws_mysql_cfg),
              ("aws-s3", aws_s3_cfg)]) (by decide)
     ("aws-postgres", aws_postgres_cfg) (by decide),
   c9_catalog_types_safe.2.1 envGood st0 "not-a-source",
   c9_catalog_types_safe.2.2 envGood st0 "aws-postgres"⟩

theorem create_ssh_tunnel_trace_mem (env : Env) (st : ConnState)
    (id : String) (cfg : SourceConfig) (op : FsOp)
    (h : op ∈ (create_ssh_tunnel env st id cfg).2.trace) :
    op ∈ st.trace ∨ op = FsOp.writeTunnelDesc id (mkTunnelInfo env id cfg) := by
  by_cases hkey : env.sshKeyAvailable = false
  · simp [create_ssh_tunnel, hkey] at h
    exact Or.inl h
  · have hkey2 : env.sshKeyAvailable = true := by simpa using hkey
    by_cases hreach : env.bastionReachable cfg.bastion_host = false
    · simp [create_ssh_tunnel, hkey2, hreach] at h
      exact Or.inl h
    · have hreach2 : env.bastionReachable cfg.bastion_host = true := by
        simpa using hreach
      cases hso : env.startOutcome with
      | exn =>
        simp [create_ssh_tunnel, hkey2, hreach2, hso] at h
        exact Or.inl h
      | ok alive =>
        cases alive
        · simp [create_ssh_tunnel, hkey2, hreach2, hso] at h
          exact Or.inl h
        · simp only [create_ssh_tunnel, hkey2, hreach2, hso,
            Bool.true_eq_false, if_false, if_true] at h
          rcases List.mem_append.mp h with h1 | h2
          · exact Or.inl h1
          · exact Or.inr (List.mem_singleton.mp h2)

theorem create_starburst_profile_trace_mem (st : ConnState) (id : String)
    (cfg : SourceConfig) (info : TunnelInfo) (op : FsOp)
    (h : op ∈ (create_starburst_connection_profile st id cfg info).2.trace) :
    op ∈ st.trace ∨ ∃ c, op = FsOp.writeProfile id c := by
  unfold create_starburst_connection_profile at h
  cases hcc : starburstCatalogConfig cfg.stype info.local_port with
  | none =>
    rw [hcc] at h
    exact Or.inl h
  | some cc =>
    rw [hcc] at h
    simp only at h
    rcases List.mem_append.mp h with h1 | h2
    · exact Or.inl h1
    · exact Or.inr ⟨[(catalogKey id, cc)], List.mem_singleton.mp h2⟩

theorem create_cloud_profile_trace_mem (st : ConnState) (id : String)
    (cfg : SourceConfig) (op : FsOp)
    (h : op ∈ (create_cloud_service_profile st id cfg).2.trace) :
    op ∈ st.trace ∨ ∃ c, op = FsOp.writeProfile id c := by
  unfold create_cloud_service_profile at h
  cases hcc : cloudCatalogConfig cfg with
  | none =>
    rw [hcc] at h
    exact Or.inl h
  | some cc =>
    rw [hcc] at h
    simp only at h
    rcases List.mem_append.mp h with h1 | h2
    · exact Or.inl h1
    · exact Or.inr ⟨[(catalogKey id, cc)], List.mem_singleton.mp h2⟩

theorem stop_ssh_tunnel_trace_mem (st : ConnState) (id : String) (op : FsOp)
    (h : op ∈ (stop_ssh_tunnel st id).trace) :
    op ∈ st.trace ∨ op = FsOp.deleteTunnelDesc id := by
  unfold stop_ssh_tunnel at h
  cases hl : st.active_tunnels.lookup id with
  | none =>
    rw [hl] at h
    simp only at h
    revert h
    split
    · intro h
      rcases List.mem_append.mp h with h1 | h2
      · exact Or.inl h1
      · exact Or.inr (List.mem_singleton.mp h2)
    · intro h
      exact Or.inl h
  | some t =>
    rw [hl] at h
    simp only at h
    revert h
    split
    · intro h
      rcases List.mem_append.mp h with h1 | h2
      · exact Or.inl h1
      · exact Or.inr (List.mem_singleton.mp h2)
    · intro h
      exact Or.inl h

theorem enable_trace_desc_mem (env : Env) (st : ConnState) (id : String)
    (i : String) (info : TunnelInfo)
    (h : FsOp.writeTunnelDesc i info ∈ (enable_data_source env st id).2.trace) :
    FsOp.writeTunnelDesc i info ∈ st.trace ∨ info.status = "active" := by
  unfold enable_data_source at h
  cases hf : findSourceConfig id with
  | none =>
    rw [hf] at h
    exact Or.inl h
  | some cfg =>
    rw [hf] at h
    simp only at h
    by_cases hconn : is_data_source_connected st id = true
    · rw [if_pos hconn] at h
      exact Or.inl h
    · rw [if_neg hconn] at h
      by_cases ht : cfg.stype ∈ tunnelTypes
      · rw [if_pos ht] at h
        rcases hc : create_ssh_tunnel env st id cfg with ⟨o, st1⟩
        rw [hc] at h
        have hsub : FsOp.writeTunnelDesc i info ∈ st1.trace →
            FsOp.writeTunnelDesc i info ∈ st.trace ∨
              info.status = "active" := by
          intro hin
          have hmem := create_ssh_tunnel_trace_mem env st id cfg _
            (by rw [hc]; exact hin)
          rcases hmem with h1 | h2
          · exact Or.inl h1
          · right
            have hieq : info = mkTunnelInfo env id cfg := by
              injection h2 with ha hb
            rw [hieq]
            rfl
        cases o with
        | none => exact hsub h
        | some info2 =>
          simp only at h
          rcases hp : create_starburst_connection_profile st1 id cfg info2
            with ⟨po, st2⟩
          rw [hp] at h
          have hin2 : FsOp.writeTunnelDesc i info ∈ st2.trace := by
            cases po <;> simpa using h
          have hmem2 := create_starburst_profile_trace_mem st1 id cfg info2 _
            (by rw [hp]; exact hin2)
          rcases hmem2 with h1 | ⟨c, hcEq⟩
          · exact hsub h1
          · simp at hcEq
      · by_cases hcl : cfg.stype ∈ cloudTypes
        · rw [if_neg ht, if_pos hcl] at h
          rcases hp : create_cloud_service_profile st id cfg with ⟨po, st1⟩
          rw [hp] at h
          have hin2 : FsOp.writeTunnelDesc i info ∈ st1.trace := by
            cases po <;> simpa using h
          have hmem2 := create_cloud_profile_trace_mem st id cfg _
            (by rw [hp]; exact hin2)
          rcases hmem2 with h1 | ⟨c, hcEq⟩
          · exact Or.inl h1
          · simp at hcEq
        · rw [if_neg ht, if_neg hcl] at h
          exact Or.inl h

theorem disable_trace_desc_mem (st : ConnState) (id : String) (i : String)
    (info : TunnelInfo)
    (h : FsOp.writeTunnelDesc i info ∈ (disable_data_source st id).trace) :
    FsOp.writeTunnelDesc i info ∈ st.trace := by
  unfold disable_data_source at h
  by_cases hconn : is_data_source_connected st id = false
  · rw [if_pos hconn] at h
    exact h
  · rw [if_neg hconn] at h
    simp only at h
    by_cases hp :
        (List.lookup id (stop_ssh_tunnel st id).profileFiles).isSome = true
    · rw [if_pos hp] at h
      simp only at h
      rcases List.mem_append.mp h with h1 | h2
      · rcases stop_ssh_tunnel_trace_mem st id _ h1 with g1 | g2
        · exact g1
        · simp at g2
      · exact absurd (List.mem_singleton.mp h2) (by simp)
    · rw [if_neg hp] at h
      rcases stop_ssh_tunnel_trace_mem st id _ h with g1 | g2
      · exact g1
      · simp at g2

theorem cleanup_trace_desc_mem (st : ConnState) (i : String)
    (info : TunnelInfo)
    (h : FsOp.writeTunnelDesc i info ∈ (cleanup_inactive_tunnels st).trace) :
    FsOp.writeTunnelDesc i info ∈ st.trace := by
  rw [cleanup_eq_foldl] at h
  rcases foldl_cleanup_trace_mem (inactiveIds st) st _ h with h1 | ⟨j, _, heq⟩
  · exact h1
  · simp at heq

/-- C10: every tunnel-descriptor file ever written carries status active:
any writeTunnelDesc operation present in the trace after an Enable call
either predates the call or writes a descriptor whose status field is the
string active, and neither Disable nor a health-monitor cleanup cycle ever
appends a descriptor write — tunnel closure is persisted exclusively by
deleting the descriptor file. -/
theorem c10_descriptor_status_active :
    (∀ env st id i info,
      FsOp.writeTunnelDesc i info ∈ (enable_data_source env st id).2.trace →
      FsOp.writeTunnelDesc i info ∈ st.trace ∨ info.status = "active") ∧
    (∀ st id i info,
      FsOp.writeTunnelDesc i info ∈ (disable_data_source st id).trace →
      FsOp.writeTunnelDesc i info ∈ st.trace) ∧
    (∀ st i info,
      FsOp.writeTunnelDesc i info ∈ (cleanup_inactive_tunnels st).trace →
      FsOp.writeTunnelDesc i info ∈ st.trace) :=
  ⟨enable_trace_desc_mem, disable_trace_desc_mem, cleanup_trace_desc_mem⟩

theorem c10_descriptor_status_active_witness :
    (FsOp.writeTunnelDesc "aws-postgres" tInfo0 ∈
       (enable_data_source envGood st0 "aws-postgres").2.trace) ∧
    (FsOp.writeTunnelDesc "aws-postgres" tInfo0 ∈ st0.trace ∨
       tInfo0.status = "active") :=
  ⟨by decide,
   c10_descriptor_status_active.1 envGood st0 "aws-postgres" "aws-postgres"
     tInfo0 (by decide)⟩

end AwsAutomation
